import Mathlib

/-!
# Verification of the sokol_gfx resource-pool and pass-protocol core

This development embeds the public surface of `src/sokol_gfx.h` (enumerations,
handle packing, descriptor records) and models the resource-pool and
pass/draw-state behavior of the library.  The repository only ships the public
header; the implementation file `_sokol_gfx.impl.h` it includes is not part of
the sources, so the behavioral definitions below are modelled from the
specification text (each such definition says so in its doc comment).  The
enumeration values and struct shapes are taken directly from the header.
-/

set_option linter.unusedVariables false

/-! ## Enumerations from src/sokol_gfx.h

C enumerators without explicit initializers number sequentially from 0; every
constant below mirrors one enumerator of the header with its numeric value.
-/

-- enum sg_usage (values in declaration order, from src/sokol_gfx.h)
def _SG_USAGE_DEFAULT : Nat := 0
def SG_USAGE_IMMUTABLE : Nat := 1
def SG_USAGE_DYNAMIC : Nat := 2
def SG_USAGE_STREAM : Nat := 3
def _SG_USAGE_NUM : Nat := 4

-- enum sg_buffer_type (values in declaration order, from src/sokol_gfx.h)
def _SG_BUFFERTYPE_DEFAULT : Nat := 0
def SG_BUFFERTYPE_VERTEXBUFFER : Nat := 1
def SG_BUFFERTYPE_INDEXBUFFER : Nat := 2
def _SG_BUFFERTYPE_NUM : Nat := 3

-- enum sg_index_type (values in declaration order, from src/sokol_gfx.h)
def _SG_INDEXTYPE_DEFAULT : Nat := 0
def SG_INDEXTYPE_NONE : Nat := 1
def SG_INDEXTYPE_UINT16 : Nat := 2
def SG_INDEXTYPE_UINT32 : Nat := 3
def _SG_INDEXTYPE_NUM : Nat := 4

-- enum sg_image_type (values in declaration order, from src/sokol_gfx.h)
def _SG_IMAGETYPE_DEFAULT : Nat := 0
def SG_IMAGETYPE_2D : Nat := 1
def SG_IMAGETYPE_CUBE : Nat := 2
def SG_IMAGETYPE_3D : Nat := 3
def SG_IMAGETYPE_ARRAY : Nat := 4
def _SG_IMAGETYPE_NUM : Nat := 5

-- enum sg_pixel_format (values in declaration order, from src/sokol_gfx.h)
def _SG_PIXELFORMAT_DEFAULT : Nat := 0
def SG_PIXELFORMAT_NONE : Nat := 1
def SG_PIXELFORMAT_RGBA8 : Nat := 2
def SG_PIXELFORMAT_RGB8 : Nat := 3
def SG_PIXELFORMAT_RGBA4 : Nat := 4
def SG_PIXELFORMAT_R5G6B5 : Nat := 5
def SG_PIXELFORMAT_R5G5B5A1 : Nat := 6
def SG_PIXELFORMAT_R10G10B10A2 : Nat := 7
def SG_PIXELFORMAT_RGBA32F : Nat := 8
def SG_PIXELFORMAT_RGBA16F : Nat := 9
def SG_PIXELFORMAT_R32F : Nat := 10
def SG_PIXELFORMAT_R16F : Nat := 11
def SG_PIXELFORMAT_L8 : Nat := 12
def SG_PIXELFORMAT_DXT1 : Nat := 13
def SG_PIXELFORMAT_DXT3 : Nat := 14
def SG_PIXELFORMAT_DXT5 : Nat := 15
def SG_PIXELFORMAT_DEPTH : Nat := 16
def SG_PIXELFORMAT_DEPTHSTENCIL : Nat := 17
def SG_PIXELFORMAT_PVRTC2_RGB : Nat := 18
def SG_PIXELFORMAT_PVRTC4_RGB : Nat := 19
def SG_PIXELFORMAT_PVRTC2_RGBA : Nat := 20
def SG_PIXELFORMAT_PVRTC4_RGBA : Nat := 21
def SG_PIXELFORMAT_ETC2_RGB8 : Nat := 22
def SG_PIXELFORMAT_ETC2_SRGB8 : Nat := 23
def _SG_PIXELFORMAT_NUM : Nat := 24

-- enum sg_primitive_type (values in declaration order, from src/sokol_gfx.h)
def _SG_PRIMITIVETYPE_DEFAULT : Nat := 0
def SG_PRIMITIVETYPE_POINTS : Nat := 1
def SG_PRIMITIVETYPE_LINES : Nat := 2
def SG_PRIMITIVETYPE_LINE_STRIP : Nat := 3
def SG_PRIMITIVETYPE_TRIANGLES : Nat := 4
def SG_PRIMITIVETYPE_TRIANGLE_STRIP : Nat := 5
def _SG_PRIMITIVETYPE_NUM : Nat := 6

-- enum sg_filter (values in declaration order, from src/sokol_gfx.h)
def _SG_FILTER_DEFAULT : Nat := 0
def SG_FILTER_NEAREST : Nat := 1
def SG_FILTER_LINEAR : Nat := 2
def SG_FILTER_NEAREST_MIPMAP_NEAREST : Nat := 3
def SG_FILTER_NEAREST_MIPMAP_LINEAR : Nat := 4
def SG_FILTER_LINEAR_MIPMAP_NEAREST : Nat := 5
def SG_FILTER_LINEAR_MIPMAP_LINEAR : Nat := 6
def _SG_FILTER_NUM : Nat := 7

-- enum sg_wrap (values in declaration order, from src/sokol_gfx.h)
def _SG_WRAP_DEFAULT : Nat := 0
def SG_WRAP_REPEAT : Nat := 1
def SG_WRAP_CLAMP_TO_EDGE : Nat := 2
def SG_WRAP_MIRRORED_REPEAT : Nat := 3
def _SG_WRAP_NUM : Nat := 4

-- enum sg_cull_mode (values in declaration order, from src/sokol_gfx.h)
def _SG_CULLMODE_DEFAULT : Nat := 0
def SG_CULLMODE_NONE : Nat := 1
def SG_CULLMODE_FRONT : Nat := 2
def SG_CULLMODE_BACK : Nat := 3
def _SG_CULLMODE_NUM : Nat := 4

-- enum sg_face_winding (values in declaration order, from src/sokol_gfx.h)
def _SG_FACEWINDING_DEFAULT : Nat := 0
def SG_FACEWINDING_CCW : Nat := 1
def SG_FACEWINDING_CW : Nat := 2
def _SG_FACEWINDING_NUM : Nat := 3

-- enum sg_compare_func (values in declaration order, from src/sokol_gfx.h)
def _SG_COMPAREFUNC_DEFAULT : Nat := 0
def SG_COMPAREFUNC_NEVER : Nat := 1
def SG_COMPAREFUNC_LESS : Nat := 2
def SG_COMPAREFUNC_EQUAL : Nat := 3
def SG_COMPAREFUNC_LESS_EQUAL : Nat := 4
def SG_COMPAREFUNC_GREATER : Nat := 5
def SG_COMPAREFUNC_NOT_EQUAL : Nat := 6
def SG_COMPAREFUNC_GREATER_EQUAL : Nat := 7
def SG_COMPAREFUNC_ALWAYS : Nat := 8
def _SG_COMPAREFUNC_NUM : Nat := 9

-- enum sg_stencil_op (values in declaration order, from src/sokol_gfx.h)
def _SG_STENCILOP_DEFAULT : Nat := 0
def SG_STENCILOP_KEEP : Nat := 1
def SG_STENCILOP_ZERO : Nat := 2
def SG_STENCILOP_REPLACE : Nat := 3
def SG_STENCILOP_INCR_CLAMP : Nat := 4
def SG_STENCILOP_DECR_CLAMP : Nat := 5
def SG_STENCILOP_INVERT : Nat := 6
def SG_STENCILOP_INCR_WRAP : Nat := 7
def SG_STENCILOP_DECR_WRAP : Nat := 8
def _SG_STENCILOP_NUM : Nat := 9

-- enum sg_blend_factor (values in declaration order, from src/sokol_gfx.h)
def _SG_BLENDFACTOR_DEFAULT : Nat := 0
def SG_BLENDFACTOR_ZERO : Nat := 1
def SG_BLENDFACTOR_ONE : Nat := 2
def SG_BLENDFACTOR_SRC_COLOR : Nat := 3
def SG_BLENDFACTOR_ONE_MINUS_SRC_COLOR : Nat := 4
def SG_BLENDFACTOR_SRC_ALPHA : Nat := 5
def SG_BLENDFACTOR_ONE_MINUS_SRC_ALPHA : Nat := 6
def SG_BLENDFACTOR_DST_COLOR : Nat := 7
def SG_BLENDFACTOR_ONE_MINUS_DST_COLOR : Nat := 8
def SG_BLENDFACTOR_DST_ALPHA : Nat := 9
def SG_BLENDFACTOR_ONE_MINUS_DST_ALPHA : Nat := 10
def SG_BLENDFACTOR_SRC_ALPHA_SATURATED : Nat := 11
def SG_BLENDFACTOR_BLEND_COLOR : Nat := 12
def SG_BLENDFACTOR_ONE_MINUS_BLEND_COLOR : Nat := 13
def SG_BLENDFACTOR_BLEND_ALPHA : Nat := 14
def SG_BLENDFACTOR_ONE_MINUS_BLEND_ALPHA : Nat := 15
def _SG_BLENDFACTOR_NUM : Nat := 16

-- enum sg_blend_op (values in declaration order, from src/sokol_gfx.h)
def _SG_BLENDOP_DEFAULT : Nat := 0
def SG_BLENDOP_ADD : Nat := 1
def SG_BLENDOP_SUBTRACT : Nat := 2
def SG_BLENDOP_REVERSE_SUBTRACT : Nat := 3
def _SG_BLENDOP_NUM : Nat := 4

-- enum sg_action (values in declaration order, from src/sokol_gfx.h)
def _SG_ACTION_DEFAULT : Nat := 0
def SG_ACTION_CLEAR : Nat := 1
def SG_ACTION_LOAD : Nat := 2
def SG_ACTION_DONTCARE : Nat := 3
def _SG_ACTION_NUM : Nat := 4

/-- Selectable (non-sentinel) enumerator values of `sg_usage` from src/sokol_gfx.h. -/
def sg_usage_options : List Nat :=
  [SG_USAGE_IMMUTABLE, SG_USAGE_DYNAMIC, SG_USAGE_STREAM]

/-- Selectable (non-sentinel) enumerator values of `sg_buffer_type` from src/sokol_gfx.h. -/
def sg_buffer_type_options : List Nat :=
  [SG_BUFFERTYPE_VERTEXBUFFER, SG_BUFFERTYPE_INDEXBUFFER]

/-- Selectable (non-sentinel) enumerator values of `sg_index_type` from src/sokol_gfx.h. -/
def sg_index_type_options : List Nat :=
  [SG_INDEXTYPE_NONE, SG_INDEXTYPE_UINT16, SG_INDEXTYPE_UINT32]

/-- Selectable (non-sentinel) enumerator values of `sg_image_type` from src/sokol_gfx.h. -/
def sg_image_type_options : List Nat :=
  [SG_IMAGETYPE_2D, SG_IMAGETYPE_CUBE, SG_IMAGETYPE_3D, SG_IMAGETYPE_ARRAY]

/-- Selectable (non-sentinel) enumerator values of `sg_pixel_format` from src/sokol_gfx.h. -/
def sg_pixel_format_options : List Nat :=
  [SG_PIXELFORMAT_NONE, SG_PIXELFORMAT_RGBA8, SG_PIXELFORMAT_RGB8, SG_PIXELFORMAT_RGBA4, SG_PIXELFORMAT_R5G6B5, SG_PIXELFORMAT_R5G5B5A1, SG_PIXELFORMAT_R10G10B10A2, SG_PIXELFORMAT_RGBA32F, SG_PIXELFORMAT_RGBA16F, SG_PIXELFORMAT_R32F, SG_PIXELFORMAT_R16F, SG_PIXELFORMAT_L8, SG_PIXELFORMAT_DXT1, SG_PIXELFORMAT_DXT3, SG_PIXELFORMAT_DXT5, SG_PIXELFORMAT_DEPTH, SG_PIXELFORMAT_DEPTHSTENCIL, SG_PIXELFORMAT_PVRTC2_RGB, SG_PIXELFORMAT_PVRTC4_RGB, SG_PIXELFORMAT_PVRTC2_RGBA, SG_PIXELFORMAT_PVRTC4_RGBA, SG_PIXELFORMAT_ETC2_RGB8, SG_PIXELFORMAT_ETC2_SRGB8]

/-- Selectable (non-sentinel) enumerator values of `sg_primitive_type` from src/sokol_gfx.h. -/
def sg_primitive_type_options : List Nat :=
  [SG_PRIMITIVETYPE_POINTS, SG_PRIMITIVETYPE_LINES, SG_PRIMITIVETYPE_LINE_STRIP, SG_PRIMITIVETYPE_TRIANGLES, SG_PRIMITIVETYPE_TRIANGLE_STRIP]

/-- Selectable (non-sentinel) enumerator values of `sg_filter` from src/sokol_gfx.h. -/
def sg_filter_options : List Nat :=
  [SG_FILTER_NEAREST, SG_FILTER_LINEAR, SG_FILTER_NEAREST_MIPMAP_NEAREST, SG_FILTER_NEAREST_MIPMAP_LINEAR, SG_FILTER_LINEAR_MIPMAP_NEAREST, SG_FILTER_LINEAR_MIPMAP_LINEAR]

/-- Selectable (non-sentinel) enumerator values of `sg_wrap` from src/sokol_gfx.h. -/
def sg_wrap_options : List Nat :=
  [SG_WRAP_REPEAT, SG_WRAP_CLAMP_TO_EDGE, SG_WRAP_MIRRORED_REPEAT]

/-- Selectable (non-sentinel) enumerator values of `sg_cull_mode` from src/sokol_gfx.h. -/
def sg_cull_mode_options : List Nat :=
  [SG_CULLMODE_NONE, SG_CULLMODE_FRONT, SG_CULLMODE_BACK]

/-- Selectable (non-sentinel) enumerator values of `sg_face_winding` from src/sokol_gfx.h. -/
def sg_face_winding_options : List Nat :=
  [SG_FACEWINDING_CCW, SG_FACEWINDING_CW]

/-- Selectable (non-sentinel) enumerator values of `sg_compare_func` from src/sokol_gfx.h. -/
def sg_compare_func_options : List Nat :=
  [SG_COMPAREFUNC_NEVER, SG_COMPAREFUNC_LESS, SG_COMPAREFUNC_EQUAL, SG_COMPAREFUNC_LESS_EQUAL, SG_COMPAREFUNC_GREATER, SG_COMPAREFUNC_NOT_EQUAL, SG_COMPAREFUNC_GREATER_EQUAL, SG_COMPAREFUNC_ALWAYS]

/-- Selectable (non-sentinel) enumerator values of `sg_stencil_op` from src/sokol_gfx.h. -/
def sg_stencil_op_options : List Nat :=
  [SG_STENCILOP_KEEP, SG_STENCILOP_ZERO, SG_STENCILOP_REPLACE, SG_STENCILOP_INCR_CLAMP, SG_STENCILOP_DECR_CLAMP, SG_STENCILOP_INVERT, SG_STENCILOP_INCR_WRAP, SG_STENCILOP_DECR_WRAP]

/-- Selectable (non-sentinel) enumerator values of `sg_blend_factor` from src/sokol_gfx.h. -/
def sg_blend_factor_options : List Nat :=
  [SG_BLENDFACTOR_ZERO, SG_BLENDFACTOR_ONE, SG_BLENDFACTOR_SRC_COLOR, SG_BLENDFACTOR_ONE_MINUS_SRC_COLOR, SG_BLENDFACTOR_SRC_ALPHA, SG_BLENDFACTOR_ONE_MINUS_SRC_ALPHA, SG_BLENDFACTOR_DST_COLOR, SG_BLENDFACTOR_ONE_MINUS_DST_COLOR, SG_BLENDFACTOR_DST_ALPHA, SG_BLENDFACTOR_ONE_MINUS_DST_ALPHA, SG_BLENDFACTOR_SRC_ALPHA_SATURATED, SG_BLENDFACTOR_BLEND_COLOR, SG_BLENDFACTOR_ONE_MINUS_BLEND_COLOR, SG_BLENDFACTOR_BLEND_ALPHA, SG_BLENDFACTOR_ONE_MINUS_BLEND_ALPHA]

/-- Selectable (non-sentinel) enumerator values of `sg_blend_op` from src/sokol_gfx.h. -/
def sg_blend_op_options : List Nat :=
  [SG_BLENDOP_ADD, SG_BLENDOP_SUBTRACT, SG_BLENDOP_REVERSE_SUBTRACT]

/-- Selectable (non-sentinel) enumerator values of `sg_action` from src/sokol_gfx.h. -/
def sg_action_options : List Nat :=
  [SG_ACTION_CLEAR, SG_ACTION_LOAD, SG_ACTION_DONTCARE]

/-- Modelled from the spec: the out-of-scope struct-literal default-filling
helpers replace an all-zero enum field by its documented default value; the
documented defaults are quoted in the doc comments of src/sokol_gfx.h
(for example "The default usage is SG_USAGE_IMMUTABLE"). -/
def sgApplyEnumDefault (documentedDefault v : Nat) : Nat :=
  if v = 0 then documentedDefault else v

/-- `SG_INVALID_ID` from the anonymous constant enum of src/sokol_gfx.h. -/
def SG_INVALID_ID : Nat := 0

/-- `sg_resource_state` from src/sokol_gfx.h (INITIAL, ALLOC, VALID, FAILED). -/
inductive sg_resource_state where
  | INITIAL
  | ALLOC
  | VALID
  | FAILED
deriving DecidableEq

/-- `sg_shader_stage` from src/sokol_gfx.h (vertex- and fragment-stage). -/
inductive sg_shader_stage where
  | VS
  | FS

/-! ## Handles

The header documents the 32-bit resource id as a 16-bit pool index in the
lower bits and a 16-bit unique (generation) counter in the upper bits. -/

/-- A resource handle: pool-slot index plus generation counter, the unpacked
form of the `uint32_t id` wrapped by `sg_buffer`, `sg_image`, `sg_shader`,
`sg_pipeline` and `sg_pass` in src/sokol_gfx.h. -/
structure Handle where
  index : Nat
  generation : Nat

/-- Unpack a 32-bit resource id: low 16 bits are the pool index, high 16 bits
the generation counter (per the resource-id comment in src/sokol_gfx.h). -/
def Handle.ofId (id : Nat) : Handle :=
  ⟨id % 65536, (id / 65536) % 65536⟩

/-- Pack a handle back into its 32-bit id form. -/
def Handle.toId (h : Handle) : Nat :=
  h.index % 65536 + 65536 * (h.generation % 65536)

/-! ## The resource pool, modelled from the spec (section 3 and 4.1)

The pool implementation lives in `_sokol_gfx.impl.h`, which is not part of the
repository sources, so everything below is modelled from the specification
text. -/

/-- Modelled from the spec: one pool entry, `{ state, generation (uint16),
payload }` plus the per-slot "updated this frame" flag of spec 4.1; the
implementation's slot struct is in the missing `_sokol_gfx.impl.h`. -/
structure Slot (α : Type) where
  state : sg_resource_state
  generation : Nat
  updatedThisFrame : Bool
  payload : Option α

/-- Modelled from the spec: a fixed-capacity array of slots plus a free-list
of INITIAL indices (spec section 3, "Pool"); the implementation's pool struct
is in the missing `_sokol_gfx.impl.h`. -/
structure Pool (α : Type) where
  slots : List (Slot α)
  freeList : List Nat

/-- Modelled from the spec: a never-used slot; generation starts so that the
first-ever allocation of the index hands out generation 1 (spec 4.1,
"On first-ever use of an index, generation starts at 1"). -/
def initialSlot (α : Type) : Slot α :=
  ⟨.INITIAL, 1, false, none⟩

/-- Modelled from the spec: pool creation at `sg_setup` time — `capacity`
unused INITIAL slots, all indices on the free list. -/
def Pool.create (α : Type) (capacity : Nat) : Pool α :=
  ⟨List.replicate capacity (initialSlot α), List.range capacity⟩

def Pool.capacity (p : Pool α) : Nat := p.slots.length

/-- Modelled from the spec: allocation failure `PoolExhausted` (spec 4.1). -/
inductive AllocError where
  | PoolExhausted

/-- Modelled from the spec: `allocate` pops a free INITIAL slot index (fails
with `PoolExhausted` if none), sets state=ALLOC and returns a handle embedding
the slot's current generation (spec 4.1); implemented in the missing
`_sokol_gfx.impl.h` behind `sg_alloc_buffer` and friends. -/
def Pool.alloc (p : Pool α) : Except AllocError (Handle × Pool α) :=
  match p.freeList with
  | [] => .error .PoolExhausted
  | i :: rest =>
    match p.slots[i]? with
    | some s =>
      .ok (⟨i, s.generation⟩,
        { slots := p.slots.set i { s with state := .ALLOC }, freeList := rest })
    | none => .error .PoolExhausted

/-- Modelled from the spec: `resolve(handle)` (spec 4.1/3) — a handle is valid
iff its index is in range, the slot's state is not INITIAL, and the handle's
generation equals the slot's current generation; yields the slot index or
nothing. -/
def Pool.resolve (p : Pool α) (h : Handle) : Option Nat :=
  match p.slots[h.index]? with
  | some s =>
    if s.state ≠ .INITIAL ∧ h.generation = s.generation then some h.index else none
  | none => none

/-- Modelled from the spec: `destroy(handle)` (spec 4.1) — when the handle
resolves (valid or ALLOC), tear down the payload, reset state to INITIAL,
increment the 16-bit generation and push the index back on the free list;
otherwise a no-op.  Implemented in the missing `_sokol_gfx.impl.h` behind
`sg_destroy_buffer` and friends. -/
def Pool.destroy (p : Pool α) (h : Handle) : Pool α :=
  match p.resolve h with
  | none => p
  | some i =>
    match p.slots[i]? with
    | some s =>
      { slots := p.slots.set i ⟨.INITIAL, (s.generation + 1) % 65536, false, none⟩,
        freeList := i :: p.freeList }
    | none => p

/-- Modelled from the spec: result of `initialize` (spec 4.1); the backend
payload-creation call is executed exactly when the result is `ok`. -/
inductive InitResult where
  | ok
  | invalidHandle
  | validationFailed

/-- Modelled from the spec: `initialize(handle, desc)` (spec 4.1) — requires
slot.state==ALLOC and matching generation, else `invalidHandle` and no state
change; on descriptor validation success the backend creates the payload and
the slot becomes VALID, on failure the slot becomes FAILED and records no
payload.  `valid` is the kind-specific descriptor validation verdict and `pl`
the payload the backend would create. -/
def Pool.initSlot (p : Pool α) (h : Handle) (valid : Bool) (pl : α) :
    Pool α × InitResult :=
  match p.slots[h.index]? with
  | some s =>
    if s.state = .ALLOC ∧ h.generation = s.generation then
      if valid then
        ({ p with slots := p.slots.set h.index { s with state := .VALID, payload := some pl } },
         .ok)
      else
        ({ p with slots := p.slots.set h.index { s with state := .FAILED, payload := none } },
         .validationFailed)
    else (p, .invalidHandle)
  | none => (p, .invalidHandle)

/-- Modelled from the spec: result of `update` (spec 4.1); the chosen policy
for exceeding the per-frame budget is to report `budgetExceeded`. -/
inductive UpdateResult where
  | ok
  | invalidHandle
  | immutableUsage
  | budgetExceeded

/-- Modelled from the spec: the payload of a buffer slot retains the resolved
usage policy from its descriptor. -/
structure BufferInfo where
  usage : Nat

/-- Modelled from the spec: `update(handle, data)` (spec 4.1) — requires
state==VALID, matching generation and a usage policy other than immutable;
permits at most one update per resource per frame via the per-slot flag,
reporting `budgetExceeded` on the second call before the frame boundary. -/
def Pool.updateBuffer (p : Pool BufferInfo) (h : Handle) :
    Pool BufferInfo × UpdateResult :=
  match p.slots[h.index]? with
  | some s =>
    if s.state = .VALID ∧ h.generation = s.generation then
      match s.payload with
      | some info =>
        if info.usage = SG_USAGE_IMMUTABLE then (p, .immutableUsage)
        else if s.updatedThisFrame then (p, .budgetExceeded)
        else ({ p with slots := p.slots.set h.index { s with updatedThisFrame := true } }, .ok)
      | none => (p, .invalidHandle)
    else (p, .invalidHandle)
  | none => (p, .invalidHandle)

/-- Modelled from the spec: the frame-boundary bookkeeping of `sg_commit`
clears the "updated this frame" flag on every slot of a pool (spec 4.3). -/
def Pool.clearFrameFlags (p : Pool α) : Pool α :=
  { p with slots := p.slots.map fun s => { s with updatedThisFrame := false } }

/-- `sg_buffer_desc` from src/sokol_gfx.h: byte size, buffer type, usage and
initial data; the two pointer members are modelled by whether `data_ptr` is
non-null, plus the byte count `data_size`. -/
structure sg_buffer_desc where
  size : Int
  type : Nat
  usage : Nat
  dataPtrNonNull : Bool
  dataSize : Int

/-- Modelled from the spec: buffer-descriptor validation (spec 4.1/7) — the
size must be positive, and immutable-usage buffers must supply initial data
(src/sokol_gfx.h documents that data_ptr and data_size cannot be 0 for
SG_USAGE_IMMUTABLE). -/
def validBufferDesc (d : sg_buffer_desc) : Bool :=
  decide (0 < d.size) &&
    (!(sgApplyEnumDefault SG_USAGE_IMMUTABLE d.usage == SG_USAGE_IMMUTABLE) ||
      (d.dataPtrNonNull && decide (0 < d.dataSize)))

/-- Modelled from the spec: `sg_init_buffer` — initialize an allocated buffer
slot from its descriptor, recording the resolved usage as payload. -/
def Pool.initBuffer (p : Pool BufferInfo) (h : Handle) (d : sg_buffer_desc) :
    Pool BufferInfo × InitResult :=
  p.initSlot h (validBufferDesc d) ⟨sgApplyEnumDefault SG_USAGE_IMMUTABLE d.usage⟩

/-! ## The pass / draw-state controller, modelled from the spec (section 4.3)

The controller implementation lives in the missing `_sokol_gfx.impl.h`; the
definitions below are modelled from the specification text. -/

/-- Modelled from the spec: the pass-bracket state machine has exactly the two
states NoPass and InPass (spec 4.3). -/
inductive PassState where
  | NoPass
  | InPass
deriving DecidableEq

/-- Modelled from the spec: a fatal usage error — a contract violation such as
calling a pass-bracket operation out of state order (spec 4.3/7). -/
inductive SgFatal where
  | contractViolation

/-- Modelled from the spec: the shader payload relevant to
`sg_apply_uniform_block` — the declared uniform-block byte sizes of the
vertex- and the fragment-stage (spec 4.3 and `sg_shader_desc` of
src/sokol_gfx.h). -/
structure ShaderInfo where
  vsUBSizes : List Nat
  fsUBSizes : List Nat

/-- The declared uniform-block size for a stage/slot pair, if that slot was
declared (`sg_shader_uniform_block_desc.size` of src/sokol_gfx.h). -/
def ShaderInfo.ubSize (sh : ShaderInfo) (stage : sg_shader_stage) (idx : Nat) : Option Nat :=
  match stage with
  | .VS => sh.vsUBSizes[idx]?
  | .FS => sh.fsUBSizes[idx]?

/-- `sg_draw_state` from src/sokol_gfx.h: one pipeline, up to
SG_MAX_SHADERSTAGE_BUFFERS vertex buffers, an optional index buffer and
per-stage image bindings (the header's fixed arrays hold zero ids in unused
entries; here only the occupied entries are listed). -/
structure sg_draw_state where
  pipeline : Handle
  vertexBuffers : List Handle
  indexBuffer : Option Handle
  vsImages : List Handle
  fsImages : List Handle

/-- Modelled from the spec: a handle is usable for rendering only when it
resolves to a slot in the VALID state (spec 3, description of VALID). -/
def Pool.resolvedValid (p : Pool α) (h : Handle) : Bool :=
  match p.slots[h.index]? with
  | some s => s.state == .VALID && h.generation == s.generation
  | none => false

/-- The payload behind a handle that resolves to a VALID slot. -/
def Pool.resolvedPayload (p : Pool α) (h : Handle) : Option α :=
  match p.slots[h.index]? with
  | some s => if s.state == .VALID && h.generation == s.generation then s.payload else none
  | none => none

/-- Modelled from the spec: the process-wide context — one pool per resource
kind plus the pass/draw-state controller state (spec 4.2/4.3).  The pipeline
pool's payload is the shader declaration the pipeline was created with, which
is what `sg_apply_uniform_block` validates against. -/
structure Gfx where
  bufferPool : Pool BufferInfo
  imagePool : Pool Unit
  shaderPool : Pool ShaderInfo
  pipelinePool : Pool ShaderInfo
  passPool : Pool Unit
  passState : PassState
  drawStateValid : Bool
  curPipeline : Option ShaderInfo
  backendDrawCalls : Nat

/-- Modelled from the spec: validation of `sg_apply_draw_state` bindings —
the pipeline and every bound vertex buffer, the optional index buffer and
every bound image must resolve to a VALID slot (spec 4.3). -/
def Gfx.drawStateOk (g : Gfx) (ds : sg_draw_state) : Bool :=
  g.pipelinePool.resolvedValid ds.pipeline &&
  ds.vertexBuffers.all (fun h => g.bufferPool.resolvedValid h) &&
  (match ds.indexBuffer with
   | some h => g.bufferPool.resolvedValid h
   | none => true) &&
  ds.vsImages.all (fun h => g.imagePool.resolvedValid h) &&
  ds.fsImages.all (fun h => g.imagePool.resolvedValid h)

/-- Modelled from the spec: `sg_begin_pass` requires the NoPass state, else a
fatal contract violation; on success it transitions to InPass (spec 4.3). -/
def Gfx.beginPass (g : Gfx) : Except SgFatal Gfx :=
  if g.passState = .NoPass then .ok { g with passState := .InPass }
  else .error .contractViolation

/-- Modelled from the spec: `sg_end_pass` requires the InPass state and
transitions back to NoPass (spec 4.3). -/
def Gfx.endPass (g : Gfx) : Except SgFatal Gfx :=
  if g.passState = .InPass then .ok { g with passState := .NoPass }
  else .error .contractViolation

/-- Modelled from the spec: `sg_apply_draw_state` — a no-op outside a pass;
inside a pass the call is always accepted, resolving every binding: when all
bindings are VALID the draw state becomes valid and the applied pipeline's
shader declaration is recorded, otherwise subsequent draws are silently
dropped until the next valid apply (spec 4.3). -/
def Gfx.applyDrawState (g : Gfx) (ds : sg_draw_state) : Gfx :=
  if g.passState = .InPass then
    if g.drawStateOk ds then
      { g with drawStateValid := true,
               curPipeline := g.pipelinePool.resolvedPayload ds.pipeline }
    else
      { g with drawStateValid := false, curPipeline := none }
  else g

/-- Modelled from the spec: `sg_draw` — emits one backend draw call only when
inside a pass with a currently-valid draw state; in every other situation it
is silently a no-op, never a hard failure (spec 4.3). -/
def Gfx.draw (g : Gfx) : Gfx :=
  if g.passState = .InPass ∧ g.drawStateValid = true then
    { g with backendDrawCalls := g.backendDrawCalls + 1 }
  else g

/-- Modelled from the spec: outcome of `sg_apply_uniform_block` (spec 4.3). -/
inductive UniformResult where
  | ok
  | notInPass
  | noPipelineApplied
  | invalidBlockIndex
  | sizeMismatch

/-- Modelled from the spec: `sg_apply_uniform_block(stage, index, data, size)`
— valid only in InPass and only after a draw state with a pipeline/shader has
been applied; the supplied size must exactly equal the shader's declared
uniform-block size for that stage/slot, else `sizeMismatch` (spec 4.3). -/
def Gfx.applyUniformBlock (g : Gfx) (stage : sg_shader_stage) (idx : Nat) (size : Nat) :
    UniformResult :=
  if g.passState = .InPass then
    match g.curPipeline with
    | none => .noPipelineApplied
    | some sh =>
      match sh.ubSize stage idx with
      | none => .invalidBlockIndex
      | some declared => if size = declared then .ok else .sizeMismatch
  else .notInPass

/-- Modelled from the spec: `sg_update_buffer` routed through the context. -/
def Gfx.updateBuffer (g : Gfx) (h : Handle) : Gfx × UpdateResult :=
  match g.bufferPool.updateBuffer h with
  | (p, r) => ({ g with bufferPool := p }, r)

/-- Modelled from the spec: `sg_commit` — the process-wide frame boundary;
the one-update-per-resource-per-frame budget resets only here (spec 4.3/5). -/
def Gfx.commit (g : Gfx) : Gfx :=
  { g with bufferPool := g.bufferPool.clearFrameFlags,
           imagePool := g.imagePool.clearFrameFlags }

/-! ## Pool well-formedness and consistency -/

/-- Is the slot at index `i` present and INITIAL? -/
def initialAt (l : List (Slot α)) (i : Nat) : Bool :=
  match l[i]? with
  | some s => s.state == .INITIAL
  | none => false

/-- Number of slots currently allocated (state other than INITIAL). -/
def Pool.allocCount (p : Pool α) : Nat :=
  p.slots.countP fun s => !(s.state == .INITIAL)

/-- The internal-consistency condition of spec section 8, property 2:
free-list size plus allocated-slot count equals the pool capacity. -/
def Pool.consistent (p : Pool α) : Prop :=
  p.freeList.length + p.allocCount = p.capacity

/-- Pool well-formedness: the free list holds no duplicates and holds exactly
the indices of INITIAL slots. -/
def Pool.WF (p : Pool α) : Prop :=
  p.freeList.Nodup ∧ ∀ i : Nat, i ∈ p.freeList ↔ initialAt p.slots i = true


/-! ## Operation sequences over one pool -/

/-- Modelled from the spec: one application-visible operation on the buffer
pool (returned handles and result codes are dropped; only the pool-state
effect is kept). -/
inductive PoolOp where
  | allocate
  | initB (h : Handle) (d : sg_buffer_desc)
  | destroyB (h : Handle)
  | updateB (h : Handle)
  | frame

/-- Modelled from the spec: the pool-state effect of one operation. -/
def Pool.applyOp (p : Pool BufferInfo) : PoolOp → Pool BufferInfo
  | .allocate =>
    match p.alloc with
    | .ok (_, p') => p'
    | .error _ => p
  | .initB h d => (p.initBuffer h d).1
  | .destroyB h => p.destroy h
  | .updateB h => (p.updateBuffer h).1
  | .frame => p.clearFrameFlags

/-- A sequence of pool operations applied in order. -/
def Pool.applyOps (p : Pool BufferInfo) (ops : List PoolOp) : Pool BufferInfo :=
  ops.foldl Pool.applyOp p
/-! ## Repeated allocate/destroy cycles on one slot -/

/-- Modelled from the spec: one full allocation cycle (alloc, then destroy)
on the buffer pool, the unit of the generation-uniqueness property of spec
section 8, property 1. -/
def Pool.cycle (p : Pool BufferInfo) : Pool BufferInfo :=
  match p.alloc with
  | .ok (h, p') => p'.destroy h
  | .error _ => p

/-- A one-slot buffer pool whose slot is unused and carries generation `g`. -/
def onePool (g : Nat) : Pool BufferInfo :=
  ⟨[⟨.INITIAL, g, false, none⟩], [0]⟩

/-- The generation embedded in the handle allocated at the start of cycle `k`
of repeated allocate/destroy on a fresh one-slot buffer pool. -/
def capturedGen (k : Nat) : Nat :=
  match (Pool.cycle^[k] (Pool.create BufferInfo 1)).alloc with
  | .ok (h, _) => h.generation
  | .error _ => 0

/-- The pool state right after the allocation of cycle `k`. -/
def allocStateAfter (k : Nat) : Pool BufferInfo :=
  match (Pool.cycle^[k] (Pool.create BufferInfo 1)).alloc with
  | .ok (_, p') => p'
  | .error _ => Pool.create BufferInfo 1

/-! ## Demonstration states used by the concrete instantiations -/

/-- A two-slot demonstration buffer pool: slot 0 holds a VALID dynamic buffer,
slot 1 is unused. -/
def demoPool : Pool BufferInfo :=
  ⟨[⟨.VALID, 1, false, some ⟨SG_USAGE_DYNAMIC⟩⟩, ⟨.INITIAL, 1, false, none⟩], [1]⟩

/-- A one-slot pool left in the ALLOC state by a single allocation. -/
def demoAllocPool : Pool BufferInfo := ⟨[⟨.ALLOC, 1, false, none⟩], []⟩

/-- A buffer descriptor rejected by validation (size 0). -/
def demoBadDesc : sg_buffer_desc := ⟨0, 0, 0, false, 0⟩

/-- A buffer descriptor accepted by validation (positive size, dynamic). -/
def demoGoodDesc : sg_buffer_desc := ⟨64, SG_BUFFERTYPE_VERTEXBUFFER, SG_USAGE_DYNAMIC, false, 0⟩

/-- A shader declaring one 16-byte uniform block on the vertex stage. -/
def demoShader : ShaderInfo := ⟨[16], []⟩

/-- A demonstration context inside a pass with a valid draw state applied. -/
def demoGfx : Gfx :=
  { bufferPool := demoPool
    imagePool := Pool.create Unit 1
    shaderPool := Pool.create ShaderInfo 1
    pipelinePool := ⟨[⟨.VALID, 1, false, some demoShader⟩], []⟩
    passPool := Pool.create Unit 1
    passState := .InPass
    drawStateValid := true
    curPipeline := some demoShader
    backendDrawCalls := 0 }

/-- The same context outside any pass. -/
def demoGfxNoPass : Gfx :=
  { demoGfx with passState := .NoPass, drawStateValid := false }

/-- A draw state referencing a stale pipeline handle (generation 99). -/
def demoBadDrawState : sg_draw_state := ⟨⟨0, 99⟩, [], none, [], []⟩

/-- A pool of four buffers with all four slots allocated. -/
def exhaustedPool : Pool BufferInfo :=
  Pool.applyOps (Pool.create BufferInfo 4)
    [.allocate, .allocate, .allocate, .allocate]

/-! ## Lemmas and theorems -/

theorem mod65536_step (k : Nat) :
    ((1 + k) % 65536 + 1) % 65536 = (1 + (k + 1)) % 65536 := by
  have h := Nat.add_mod (1 + k) 1 65536
  rw [show (1 : Nat) % 65536 = 1 from rfl] at h
  rw [← h, Nat.add_assoc]

theorem add_mod65536_ne {j k : Nat} (hjk : j < k) (hk : k < 65536) :
    (1 + j) % 65536 ≠ (1 + k) % 65536 := by
  intro heq
  have hjk1 : 1 + j < 1 + k := Nat.add_lt_add_left hjk 1
  have hk1 : 1 + k ≤ 65536 := by
    rw [Nat.add_comm]
    exact Nat.succ_le_of_lt hk
  have hj1 : 1 + j < 65536 := Nat.lt_of_lt_of_le hjk1 hk1
  rw [Nat.mod_eq_of_lt hj1] at heq
  rcases Nat.lt_or_eq_of_le hk1 with h1 | h1
  · rw [Nat.mod_eq_of_lt h1] at heq
    exact Nat.ne_of_lt hjk1 heq
  · rw [h1, Nat.mod_self] at heq
    rw [Nat.add_comm] at heq
    exact Nat.succ_ne_zero j heq

theorem initialAt_true_iff (l : List (Slot α)) (i : Nat) :
    initialAt l i = true ↔ ∃ s, l[i]? = some s ∧ s.state = .INITIAL := by
  unfold initialAt
  cases h : l[i]? with
  | none => simp
  | some s => simp

theorem countP_initial_add_allocCount (l : List (Slot α)) :
    l.countP (fun s => s.state == .INITIAL) + l.countP (fun s => !(s.state == .INITIAL)) =
      l.length := by
  induction l with
  | nil => rfl
  | cons a t ih =>
    rw [List.countP_cons, List.countP_cons, List.length_cons]
    cases hqa : (a.state == .INITIAL)
    · show t.countP _ + (t.countP _ + 1) = t.length + 1
      rw [← Nat.add_assoc, ih]
    · show t.countP _ + 1 + t.countP _ = t.length + 1
      rw [Nat.add_right_comm, ih]

theorem initialAt_cons_succ (s : Slot α) (t : List (Slot α)) (i : Nat) :
    initialAt (s :: t) (i + 1) = initialAt t i := by
  simp [initialAt]

theorem countInitial_range (l : List (Slot α)) :
    (List.range l.length).countP (initialAt l) =
      l.countP (fun s => s.state == .INITIAL) := by
  induction l with
  | nil => rfl
  | cons s t ih =>
    show (List.range (t.length + 1)).countP _ = _
    rw [List.range_succ_eq_map, List.countP_cons, List.countP_map, List.countP_cons]
    have h1 : (List.range t.length).countP (initialAt (s :: t) ∘ Nat.succ) =
        (List.range t.length).countP (initialAt t) := by
      apply List.countP_congr
      intro a _
      simp [Function.comp, initialAt_cons_succ]
    have h2 : initialAt (s :: t) 0 = (s.state == .INITIAL) := by
      simp [initialAt]
    rw [h1, h2, ih]

theorem freeList_length_of_WF {α : Type} {p : Pool α} (hw : p.WF) :
    p.freeList.length = (List.range p.slots.length).countP (initialAt p.slots) := by
  obtain ⟨hnd, hmem⟩ := hw
  have hperm : List.Perm p.freeList
      ((List.range p.slots.length).filter (initialAt p.slots)) := by
    apply List.perm_of_nodup_nodup_toFinset_eq hnd ((List.nodup_range _).filter _)
    ext i
    simp only [List.mem_toFinset, List.mem_filter, List.mem_range]
    constructor
    · intro hi
      have hini := (hmem i).mp hi
      refine ⟨?_, hini⟩
      rw [initialAt_true_iff] at hini
      obtain ⟨s, hgi, _⟩ := hini
      exact (List.getElem?_eq_some.mp hgi).1
    · rintro ⟨_, hini⟩
      exact (hmem i).mpr hini
  rw [hperm.length_eq, ← List.countP_eq_length_filter]

/-- A well-formed pool satisfies the free-list/allocated-count accounting of
spec section 8, property 2. -/
theorem Pool.WF.toConsistent {α : Type} {p : Pool α} (hw : p.WF) : p.consistent := by
  unfold Pool.consistent Pool.capacity Pool.allocCount
  rw [freeList_length_of_WF hw, countInitial_range p.slots]
  exact countP_initial_add_allocCount p.slots

theorem Pool.WF_create (α : Type) (n : Nat) : (Pool.create α n).WF := by
  refine ⟨List.nodup_range n, fun i => ?_⟩
  unfold Pool.create initialAt
  rw [List.getElem?_replicate]
  by_cases h : i < n <;> simp [h, initialSlot, List.mem_range]

theorem Pool.WF_set_state_preserved {α : Type} {p : Pool α} (hw : p.WF) {i : Nat}
    {s s' : Slot α} (hgi : p.slots[i]? = some s)
    (hst : (s'.state = .INITIAL) ↔ (s.state = .INITIAL)) :
    Pool.WF { p with slots := p.slots.set i s' } := by
  obtain ⟨hnd, hmem⟩ := hw
  refine ⟨hnd, fun j => ?_⟩
  by_cases hji : j = i
  · subst hji
    rw [hmem j]
    rw [initialAt_true_iff, initialAt_true_iff]
    have hlt : j < p.slots.length := (List.getElem?_eq_some.mp hgi).1
    simp only [List.getElem?_set_eq_of_lt s' hlt, hgi]
    constructor
    · rintro ⟨t, ht, htINI⟩
      refine ⟨s', rfl, hst.mpr ?_⟩
      obtain rfl : s = t := by injection ht
      exact htINI
    · rintro ⟨t, ht, htINI⟩
      refine ⟨s, rfl, hst.mp ?_⟩
      obtain rfl : s' = t := by injection ht
      exact htINI
  · rw [hmem j]
    unfold initialAt
    rw [List.getElem?_set_ne (fun he => hji he.symm)]

theorem Pool.WF_alloc {α : Type} {p : Pool α} (hw : p.WF) {h : Handle} {p' : Pool α}
    (ha : p.alloc = .ok (h, p')) : p'.WF := by
  have hmem := hw.2
  unfold Pool.alloc at ha
  split at ha
  next => exact absurd ha (by simp)
  next i rest hfl =>
    split at ha
    next s hgi =>
      simp only [Except.ok.injEq, Prod.mk.injEq] at ha
      obtain ⟨hh, hp⟩ := ha
      have hnodup : (i :: rest).Nodup := hfl ▸ hw.1
      have hlt : i < p.slots.length := (List.getElem?_eq_some.mp hgi).1
      refine hp ▸ ⟨(List.nodup_cons.mp hnodup).2, fun j => ?_⟩
      by_cases hji : j = i
      · subst hji
        constructor
        · intro hj
          exact absurd hj (List.nodup_cons.mp hnodup).1
        · intro hini
          rw [initialAt_true_iff] at hini
          obtain ⟨t, ht, htINI⟩ := hini
          rw [List.getElem?_set_eq_of_lt _ hlt] at ht
          obtain rfl : { s with state := .ALLOC } = t := by injection ht
          exact absurd htINI (by simp)
      · unfold initialAt
        rw [List.getElem?_set_ne (fun he => hji he.symm)]
        have hmr : j ∈ p.freeList ↔ j ∈ rest := by
          rw [hfl]
          simp [List.mem_cons, hji]
        rw [← hmr, hmem j]
        unfold initialAt
        rfl
    next => exact absurd ha (by simp)

theorem Pool.WF_destroy {α : Type} {p : Pool α} (hw : p.WF) (h : Handle) :
    (p.destroy h).WF := by
  have hmem := hw.2
  unfold Pool.destroy
  split
  next => exact hw
  next i hr =>
    unfold Pool.resolve at hr
    split at hr
    next s hgi =>
      split at hr
      next hc =>
        obtain rfl : h.index = i := by injection hr
        rw [hgi]
        have hlt : h.index < p.slots.length := (List.getElem?_eq_some.mp hgi).1
        have hnotmem : h.index ∉ p.freeList := by
          intro hin
          have hini := (hmem h.index).mp hin
          rw [initialAt_true_iff] at hini
          obtain ⟨t, ht, htINI⟩ := hini
          rw [hgi] at ht
          obtain rfl : s = t := by injection ht
          exact hc.1 htINI
        refine ⟨List.nodup_cons.mpr ⟨hnotmem, hw.1⟩, fun j => ?_⟩
        by_cases hji : j = h.index
        · subst hji
          simp only [List.mem_cons, true_or]
          rw [initialAt_true_iff]
          exact ⟨fun _ => ⟨_, List.getElem?_set_eq_of_lt _ hlt, rfl⟩, fun _ => trivial⟩
        · unfold initialAt
          rw [List.getElem?_set_ne (fun he => hji he.symm)]
          rw [List.mem_cons]
          have hor : (j = h.index ∨ j ∈ p.freeList) ↔ j ∈ p.freeList := by simp [hji]
          rw [hor, hmem j]
          unfold initialAt
          rfl
      next hc => exact absurd hr (by simp)
    next => exact absurd hr (by simp)

theorem Pool.WF_initSlot {α : Type} {p : Pool α} (hw : p.WF) (h : Handle)
    (valid : Bool) (pl : α) : (p.initSlot h valid pl).1.WF := by
  unfold Pool.initSlot
  split
  next s hgi =>
    split
    next hc =>
      split
      next hv => exact Pool.WF_set_state_preserved hw hgi (by simp [hc.1])
      next hv => exact Pool.WF_set_state_preserved hw hgi (by simp [hc.1])
    next hc => exact hw
  next => exact hw

theorem Pool.WF_updateBuffer {p : Pool BufferInfo} (hw : p.WF) (h : Handle) :
    (p.updateBuffer h).1.WF := by
  unfold Pool.updateBuffer
  split
  next s hgi =>
    split
    next hc =>
      split
      next info hpl =>
        split
        next => exact hw
        next =>
          split
          next => exact hw
          next => exact Pool.WF_set_state_preserved hw hgi (by simp [hc.1])
      next => exact hw
    next hc => exact hw
  next => exact hw

theorem Pool.WF_clearFrameFlags {α : Type} {p : Pool α} (hw : p.WF) :
    p.clearFrameFlags.WF := by
  obtain ⟨hnd, hmem⟩ := hw
  refine ⟨hnd, fun i => ?_⟩
  unfold Pool.clearFrameFlags initialAt
  simp only [List.getElem?_map]
  rw [hmem i]
  unfold initialAt
  cases p.slots[i]? <;> simp

theorem Pool.WF_applyOp {p : Pool BufferInfo} (hw : p.WF) (op : PoolOp) :
    (p.applyOp op).WF := by
  cases op with
  | allocate =>
    show (match p.alloc with | .ok (_, p') => p' | .error _ => p).WF
    split
    next h p' ha => exact Pool.WF_alloc hw ha
    next => exact hw
  | initB h d => exact Pool.WF_initSlot hw h _ _
  | destroyB h => exact Pool.WF_destroy hw h
  | updateB h => exact Pool.WF_updateBuffer hw h
  | frame => exact Pool.WF_clearFrameFlags hw

theorem Pool.WF_applyOps {p : Pool BufferInfo} (hw : p.WF) (ops : List PoolOp) :
    (p.applyOps ops).WF := by
  induction ops generalizing p with
  | nil => exact hw
  | cons op rest ih => exact ih (Pool.WF_applyOp hw op)

theorem Pool.capacity_alloc {α : Type} {p : Pool α} {h : Handle} {p' : Pool α}
    (ha : p.alloc = .ok (h, p')) : p'.capacity = p.capacity := by
  unfold Pool.alloc at ha
  split at ha
  next => exact absurd ha (by simp)
  next i rest hfl =>
    split at ha
    next s hgi =>
      simp only [Except.ok.injEq, Prod.mk.injEq] at ha
      rw [← ha.2]
      unfold Pool.capacity
      simp
    next => exact absurd ha (by simp)

theorem Pool.capacity_destroy {α : Type} (p : Pool α) (h : Handle) :
    (p.destroy h).capacity = p.capacity := by
  unfold Pool.destroy
  split
  next => rfl
  next i hr =>
    split
    next s hgi => unfold Pool.capacity; simp
    next => rfl

theorem Pool.capacity_initSlot {α : Type} (p : Pool α) (h : Handle)
    (valid : Bool) (pl : α) : (p.initSlot h valid pl).1.capacity = p.capacity := by
  unfold Pool.initSlot
  split
  next s hgi =>
    split
    next hc =>
      split
      next => unfold Pool.capacity; simp
      next => unfold Pool.capacity; simp
    next => rfl
  next => rfl

theorem Pool.capacity_updateBuffer (p : Pool BufferInfo) (h : Handle) :
    (p.updateBuffer h).1.capacity = p.capacity := by
  unfold Pool.updateBuffer
  split
  next s hgi =>
    split
    next hc =>
      split
      next info hpl =>
        split
        next => rfl
        next =>
          split
          next => rfl
          next => unfold Pool.capacity; simp
      next => rfl
    next => rfl
  next => rfl

theorem Pool.capacity_clearFrameFlags {α : Type} (p : Pool α) :
    p.clearFrameFlags.capacity = p.capacity := by
  unfold Pool.clearFrameFlags Pool.capacity
  simp

theorem Pool.capacity_applyOp (p : Pool BufferInfo) (op : PoolOp) :
    (p.applyOp op).capacity = p.capacity := by
  cases op with
  | allocate =>
    show (match p.alloc with | .ok (_, p') => p' | .error _ => p).capacity = p.capacity
    split
    next h p' ha => exact Pool.capacity_alloc ha
    next => rfl
  | initB h d => exact Pool.capacity_initSlot p h _ _
  | destroyB h => exact Pool.capacity_destroy p h
  | updateB h => exact Pool.capacity_updateBuffer p h
  | frame => exact Pool.capacity_clearFrameFlags p

theorem Pool.capacity_applyOps (p : Pool BufferInfo) (ops : List PoolOp) :
    (p.applyOps ops).capacity = p.capacity := by
  induction ops generalizing p with
  | nil => rfl
  | cons op rest ih => exact (ih _).trans (Pool.capacity_applyOp p op)

theorem create_one_eq_onePool : Pool.create BufferInfo 1 = onePool 1 := rfl

theorem cycle_onePool (g : Nat) : (onePool g).cycle = onePool ((g + 1) % 65536) := by
  simp [Pool.cycle, Pool.alloc, Pool.destroy, Pool.resolve, onePool]

theorem cycle_iter (k : Nat) :
    Pool.cycle^[k] (onePool 1) = onePool ((1 + k) % 65536) := by
  induction k with
  | zero => simp
  | succ k ih =>
    rw [Function.iterate_succ_apply', ih, cycle_onePool, mod65536_step]

theorem capturedGen_eq (k : Nat) : capturedGen k = (1 + k) % 65536 := by
  unfold capturedGen
  rw [create_one_eq_onePool, cycle_iter]
  simp [Pool.alloc, onePool]

theorem allocStateAfter_eq (k : Nat) :
    allocStateAfter k = ⟨[⟨.ALLOC, (1 + k) % 65536, false, none⟩], []⟩ := by
  unfold allocStateAfter
  rw [create_one_eq_onePool, cycle_iter]
  simp [Pool.alloc, onePool]

set_option maxHeartbeats 1000000 in
/-- C10: for every descriptor enum with a documented default (usage, buffer
type, index type, image type, pixel format, primitive type, filter, wrap,
cull mode, face winding, compare func, stencil op, blend factor for source
and destination, blend op, pass action), the numeric value 0 is the reserved
_DEFAULT sentinel, distinct from every selectable option, and default-filling
maps a zero-initialized field to the documented default (usage 0 behaves as
SG_USAGE_IMMUTABLE, action 0 as SG_ACTION_CLEAR, and so on); no meaningful
option is encoded as 0. -/
theorem c10_zero_is_default_sentinel :
    (_SG_USAGE_DEFAULT = 0 ∧ 0 ∉ sg_usage_options ∧
      sgApplyEnumDefault SG_USAGE_IMMUTABLE 0 = SG_USAGE_IMMUTABLE ∧
      SG_USAGE_IMMUTABLE ∈ sg_usage_options ∧ SG_USAGE_IMMUTABLE ≠ 0) ∧
    (_SG_BUFFERTYPE_DEFAULT = 0 ∧ 0 ∉ sg_buffer_type_options ∧
      sgApplyEnumDefault SG_BUFFERTYPE_VERTEXBUFFER 0 = SG_BUFFERTYPE_VERTEXBUFFER ∧
      SG_BUFFERTYPE_VERTEXBUFFER ∈ sg_buffer_type_options ∧ SG_BUFFERTYPE_VERTEXBUFFER ≠ 0) ∧
    (_SG_INDEXTYPE_DEFAULT = 0 ∧ 0 ∉ sg_index_type_options ∧
      sgApplyEnumDefault SG_INDEXTYPE_NONE 0 = SG_INDEXTYPE_NONE ∧
      SG_INDEXTYPE_NONE ∈ sg_index_type_options ∧ SG_INDEXTYPE_NONE ≠ 0) ∧
    (_SG_IMAGETYPE_DEFAULT = 0 ∧ 0 ∉ sg_image_type_options ∧
      sgApplyEnumDefault SG_IMAGETYPE_2D 0 = SG_IMAGETYPE_2D ∧
      SG_IMAGETYPE_2D ∈ sg_image_type_options ∧ SG_IMAGETYPE_2D ≠ 0) ∧
    (_SG_PIXELFORMAT_DEFAULT = 0 ∧ 0 ∉ sg_pixel_format_options ∧
      sgApplyEnumDefault SG_PIXELFORMAT_RGBA8 0 = SG_PIXELFORMAT_RGBA8 ∧
      SG_PIXELFORMAT_RGBA8 ∈ sg_pixel_format_options ∧ SG_PIXELFORMAT_RGBA8 ≠ 0) ∧
    (_SG_PRIMITIVETYPE_DEFAULT = 0 ∧ 0 ∉ sg_primitive_type_options ∧
      sgApplyEnumDefault SG_PRIMITIVETYPE_TRIANGLES 0 = SG_PRIMITIVETYPE_TRIANGLES ∧
      SG_PRIMITIVETYPE_TRIANGLES ∈ sg_primitive_type_options ∧ SG_PRIMITIVETYPE_TRIANGLES ≠ 0) ∧
    (_SG_FILTER_DEFAULT = 0 ∧ 0 ∉ sg_filter_options ∧
      sgApplyEnumDefault SG_FILTER_NEAREST 0 = SG_FILTER_NEAREST ∧
      SG_FILTER_NEAREST ∈ sg_filter_options ∧ SG_FILTER_NEAREST ≠ 0) ∧
    (_SG_WRAP_DEFAULT = 0 ∧ 0 ∉ sg_wrap_options ∧
      sgApplyEnumDefault SG_WRAP_REPEAT 0 = SG_WRAP_REPEAT ∧
      SG_WRAP_REPEAT ∈ sg_wrap_options ∧ SG_WRAP_REPEAT ≠ 0) ∧
    (_SG_CULLMODE_DEFAULT = 0 ∧ 0 ∉ sg_cull_mode_options ∧
      sgApplyEnumDefault SG_CULLMODE_NONE 0 = SG_CULLMODE_NONE ∧
      SG_CULLMODE_NONE ∈ sg_cull_mode_options ∧ SG_CULLMODE_NONE ≠ 0) ∧
    (_SG_FACEWINDING_DEFAULT = 0 ∧ 0 ∉ sg_face_winding_options ∧
      sgApplyEnumDefault SG_FACEWINDING_CW 0 = SG_FACEWINDING_CW ∧
      SG_FACEWINDING_CW ∈ sg_face_winding_options ∧ SG_FACEWINDING_CW ≠ 0) ∧
    (_SG_COMPAREFUNC_DEFAULT = 0 ∧ 0 ∉ sg_compare_func_options ∧
      sgApplyEnumDefault SG_COMPAREFUNC_ALWAYS 0 = SG_COMPAREFUNC_ALWAYS ∧
      SG_COMPAREFUNC_ALWAYS ∈ sg_compare_func_options ∧ SG_COMPAREFUNC_ALWAYS ≠ 0) ∧
    (_SG_STENCILOP_DEFAULT = 0 ∧ 0 ∉ sg_stencil_op_options ∧
      sgApplyEnumDefault SG_STENCILOP_KEEP 0 = SG_STENCILOP_KEEP ∧
      SG_STENCILOP_KEEP ∈ sg_stencil_op_options ∧ SG_STENCILOP_KEEP ≠ 0) ∧
    (_SG_BLENDFACTOR_DEFAULT = 0 ∧ 0 ∉ sg_blend_factor_options ∧
      sgApplyEnumDefault SG_BLENDFACTOR_ONE 0 = SG_BLENDFACTOR_ONE ∧
      SG_BLENDFACTOR_ONE ∈ sg_blend_factor_options ∧ SG_BLENDFACTOR_ONE ≠ 0) ∧
    (_SG_BLENDFACTOR_DEFAULT = 0 ∧ 0 ∉ sg_blend_factor_options ∧
      sgApplyEnumDefault SG_BLENDFACTOR_ZERO 0 = SG_BLENDFACTOR_ZERO ∧
      SG_BLENDFACTOR_ZERO ∈ sg_blend_factor_options ∧ SG_BLENDFACTOR_ZERO ≠ 0) ∧
    (_SG_BLENDOP_DEFAULT = 0 ∧ 0 ∉ sg_blend_op_options ∧
      sgApplyEnumDefault SG_BLENDOP_ADD 0 = SG_BLENDOP_ADD ∧
      SG_BLENDOP_ADD ∈ sg_blend_op_options ∧ SG_BLENDOP_ADD ≠ 0) ∧
    (_SG_ACTION_DEFAULT = 0 ∧ 0 ∉ sg_action_options ∧
      sgApplyEnumDefault SG_ACTION_CLEAR 0 = SG_ACTION_CLEAR ∧
      SG_ACTION_CLEAR ∈ sg_action_options ∧ SG_ACTION_CLEAR ≠ 0) := by
  refine ⟨?_, ?_, ?_, ?_, ?_, ?_, ?_, ?_, ?_, ?_, ?_, ?_, ?_, ?_, ?_, ?_⟩ <;> decide

/-- C1: for every pool and handle, `resolve` yields a slot reference iff the
handle's index is in range, the slot's state is not INITIAL and the handle's
generation equals the slot's current generation (the reference being the
handle's own index); in every other case it yields nothing, and the
consumers — destroy, buffer update, initialization and the
usable-for-rendering check of the draw-state path — all pass this validity
check before touching the slot. -/
theorem c1_resolve_validity {α : Type} (p : Pool α) (h : Handle) :
    ((p.resolve h).isSome = true ↔
      ∃ s, p.slots[h.index]? = some s ∧ s.state ≠ .INITIAL ∧
        h.generation = s.generation) ∧
    ((p.resolve h).isSome = true → h.index < p.capacity) ∧
    (∀ i, p.resolve h = some i → i = h.index) ∧
    (p.destroy h ≠ p → (p.resolve h).isSome = true) ∧
    (∀ (q : Pool BufferInfo), (q.updateBuffer h).2 = .ok → (q.resolve h).isSome = true) ∧
    (∀ (valid : Bool) (pl : α), (p.initSlot h valid pl).2 ≠ .invalidHandle →
      (p.resolve h).isSome = true) ∧
    (p.resolvedValid h = true → (p.resolve h).isSome = true) := by
  refine ⟨?_, ?_, ?_, ?_, ?_, ?_, ?_⟩
  · constructor
    · intro hsome
      unfold Pool.resolve at hsome
      split at hsome
      next s hgi =>
        split at hsome
        next hc => exact ⟨s, hgi, hc.1, hc.2⟩
        next hc => simp at hsome
      next => simp at hsome
    · rintro ⟨s, hgi, hne, hgen⟩
      unfold Pool.resolve
      rw [hgi]
      simp [hne, hgen]
  · intro hsome
    unfold Pool.resolve at hsome
    split at hsome
    next s hgi => exact (List.getElem?_eq_some.mp hgi).1
    next => simp at hsome
  · intro i hi
    unfold Pool.resolve at hi
    split at hi
    next s hgi =>
      split at hi
      next =>
        injection hi with hi2
        exact hi2.symm
      next => simp at hi
    next => simp at hi
  · intro hne
    by_contra hns
    apply hne
    have hnone : p.resolve h = none := by
      cases hr : p.resolve h
      · rfl
      · rw [hr] at hns; simp at hns
    unfold Pool.destroy
    rw [hnone]
  · intro q hok
    unfold Pool.updateBuffer at hok
    split at hok
    next s hgi =>
      split at hok
      next hc =>
        unfold Pool.resolve
        rw [hgi]
        simp [hc.1, hc.2]
      next hc => simp at hok
    next => simp at hok
  · intro valid pl hne
    unfold Pool.initSlot at hne
    split at hne
    next s hgi =>
      split at hne
      next hc =>
        unfold Pool.resolve
        rw [hgi]
        simp [hc.1, hc.2]
      next hc => simp at hne
    next => simp at hne
  · intro hv
    unfold Pool.resolvedValid at hv
    split at hv
    next s hgi =>
      unfold Pool.resolve
      rw [hgi]
      simp only [Bool.and_eq_true, beq_iff_eq] at hv
      simp [hv.1, hv.2]
    next => simp at hv

/-- C1 instantiated: the VALID slot 0 of the demonstration pool is reachable
through `resolve` with the matching generation. -/
theorem c1_witness :
    ∃ s, demoPool.slots[(0 : Nat)]? = some s ∧ s.state ≠ .INITIAL ∧
      (1 : Nat) = s.generation :=
  (c1_resolve_validity demoPool ⟨0, 1⟩).1.mp (by decide)

/-- C7: the pass controller steps NoPass → InPass → NoPass with at most one
pass active: begin_pass while already InPass is a fatal contract violation,
end_pass requires InPass and returns to NoPass (ending outside a pass is
likewise a contract violation), and apply_draw_state or draw outside a pass
is a no-op. -/
theorem c7_pass_bracket_discipline (g : Gfx) :
    (g.passState = .InPass → g.beginPass = .error .contractViolation) ∧
    (g.passState = .NoPass → g.beginPass = .ok { g with passState := .InPass }) ∧
    (g.passState = .InPass → g.endPass = .ok { g with passState := .NoPass }) ∧
    (g.passState = .NoPass → g.endPass = .error .contractViolation) ∧
    (g.passState = .NoPass → ∀ ds, g.applyDrawState ds = g) ∧
    (g.passState = .NoPass → g.draw = g) := by
  refine ⟨?_, ?_, ?_, ?_, ?_, ?_⟩ <;> intro hst
  · simp [Gfx.beginPass, hst]
  · simp [Gfx.beginPass, hst]
  · simp [Gfx.endPass, hst]
  · simp [Gfx.endPass, hst]
  · intro ds
    simp [Gfx.applyDrawState, hst]
  · simp [Gfx.draw, hst]

/-- C7 instantiated: beginning a pass inside the demonstration in-pass context
is a contract violation, and draw outside a pass is a no-op. -/
theorem c7_witness :
    demoGfx.beginPass = .error .contractViolation ∧
    demoGfxNoPass.draw = demoGfxNoPass :=
  ⟨(c7_pass_bracket_discipline demoGfx).1 rfl,
   (c7_pass_bracket_discipline demoGfxNoPass).2.2.2.2.2 rfl⟩

/-- C9: `apply_uniform_block` succeeds only while InPass and only after a
draw state with a pipeline/shader has been applied, with the supplied size
exactly the declared uniform-block size for that stage/slot; a size that
differs from the declared size fails with a size mismatch, outside a pass
the call is rejected, and with no applied pipeline it is rejected. -/
theorem c9_uniform_block_size (g : Gfx) (stage : sg_shader_stage) (idx size : Nat) :
    (g.applyUniformBlock stage idx size = .ok →
      g.passState = .InPass ∧
      ∃ sh, g.curPipeline = some sh ∧ sh.ubSize stage idx = some size) ∧
    (∀ sh declared, g.passState = .InPass → g.curPipeline = some sh →
      sh.ubSize stage idx = some declared → size ≠ declared →
      g.applyUniformBlock stage idx size = .sizeMismatch) ∧
    (g.passState = .NoPass → g.applyUniformBlock stage idx size = .notInPass) ∧
    (g.passState = .InPass → g.curPipeline = none →
      g.applyUniformBlock stage idx size = .noPipelineApplied) := by
  refine ⟨?_, ?_, ?_, ?_⟩
  · intro hok
    unfold Gfx.applyUniformBlock at hok
    split at hok
    next hin =>
      refine ⟨hin, ?_⟩
      split at hok
      next => simp at hok
      next sh hcur =>
        split at hok
        next => simp at hok
        next declared hub =>
          split at hok
          next hsz => exact ⟨sh, hcur, hsz ▸ hub⟩
          next => simp at hok
    next => simp at hok
  · intro sh declared hin hcur hub hne
    unfold Gfx.applyUniformBlock
    rw [hin, hcur]
    simp [hub, hne]
  · intro hst
    simp [Gfx.applyUniformBlock, hst]
  · intro hin hcur
    simp [Gfx.applyUniformBlock, hin, hcur]

/-- C9 instantiated: supplying 8 bytes against the demonstration shader's
declared 16-byte vertex-stage uniform block is a size mismatch. -/
theorem c9_witness :
    demoGfx.applyUniformBlock .VS 0 8 = .sizeMismatch :=
  (c9_uniform_block_size demoGfx .VS 0 8).2.1 demoShader 16 rfl rfl rfl (by decide)
theorem Pool.resolve_eq_some {α : Type} {p : Pool α} {h : Handle} {s : Slot α}
    (hgi : p.slots[h.index]? = some s) (hne : s.state ≠ .INITIAL)
    (hgen : h.generation = s.generation) : p.resolve h = some h.index := by
  unfold Pool.resolve
  rw [hgi]
  simp [hne, hgen]

theorem Pool.alloc_eq {α : Type} {p : Pool α} {i : Nat} {rest : List Nat} {s : Slot α}
    (hfl : p.freeList = i :: rest) (hgi : p.slots[i]? = some s) :
    p.alloc = .ok (⟨i, s.generation⟩,
      { slots := p.slots.set i { s with state := .ALLOC }, freeList := rest }) := by
  unfold Pool.alloc
  rw [hfl]
  simp [hgi]

theorem Pool.destroy_eq {α : Type} {p : Pool α} {h : Handle} {s : Slot α}
    (hgi : p.slots[h.index]? = some s) (hne : s.state ≠ .INITIAL)
    (hgen : h.generation = s.generation) :
    p.destroy h =
      { slots := p.slots.set h.index ⟨.INITIAL, (s.generation + 1) % 65536, false, none⟩,
        freeList := h.index :: p.freeList } := by
  unfold Pool.destroy
  rw [Pool.resolve_eq_some hgi hne hgen]
  simp [hgi]

theorem Pool.initSlot_eq_valid {α : Type} {p : Pool α} {h : Handle} {s : Slot α}
    (hgi : p.slots[h.index]? = some s) (hA : s.state = .ALLOC)
    (hgen : h.generation = s.generation) (pl : α) :
    p.initSlot h true pl =
      ({ p with slots := p.slots.set h.index { s with state := .VALID, payload := some pl } },
       .ok) := by
  unfold Pool.initSlot
  rw [hgi]
  simp [hA, hgen]

theorem Pool.initSlot_eq_invalid {α : Type} {p : Pool α} {h : Handle} {s : Slot α}
    (hgi : p.slots[h.index]? = some s) (hA : s.state = .ALLOC)
    (hgen : h.generation = s.generation) (pl : α) :
    p.initSlot h false pl =
      ({ p with slots := p.slots.set h.index { s with state := .FAILED, payload := none } },
       .validationFailed) := by
  unfold Pool.initSlot
  rw [hgi]
  simp [hA, hgen]

theorem Pool.updateBuffer_eq_ok {p : Pool BufferInfo} {h : Handle} {s : Slot BufferInfo}
    {info : BufferInfo} (hgi : p.slots[h.index]? = some s) (hV : s.state = .VALID)
    (hgen : h.generation = s.generation) (hpl : s.payload = some info)
    (him : info.usage ≠ SG_USAGE_IMMUTABLE) (hfl : s.updatedThisFrame = false) :
    p.updateBuffer h =
      ({ p with slots := p.slots.set h.index { s with updatedThisFrame := true } }, .ok) := by
  unfold Pool.updateBuffer
  rw [hgi]
  simp [hV, hgen, hpl, him, hfl]

theorem Pool.destroy_of_resolve_none {α : Type} {p : Pool α} {h : Handle}
    (hres : p.resolve h = none) : p.destroy h = p := by
  unfold Pool.destroy
  rw [hres]

/-- C3: slots follow INITIAL → ALLOC → (VALID | FAILED) and back to INITIAL
on destroy: allocate always leaves the popped slot in ALLOC; initializing an
ALLOC slot with a valid buffer descriptor leaves it VALID; an invalid
descriptor (for example buffer size 0) leaves it FAILED with no recorded
payload and without executing the backend payload creation (the result is
`validationFailed`, never `ok`); destroying a VALID or FAILED slot returns it
to INITIAL. -/
theorem c3_resource_state_machine :
    (∀ (p : Pool BufferInfo) (h : Handle) (p' : Pool BufferInfo), p.alloc = .ok (h, p') →
      ∃ s', p'.slots[h.index]? = some s' ∧ s'.state = .ALLOC) ∧
    (∀ (p : Pool BufferInfo) (h : Handle) (s : Slot BufferInfo) (d : sg_buffer_desc),
      p.slots[h.index]? = some s → s.state = .ALLOC → h.generation = s.generation →
      validBufferDesc d = true →
      (p.initBuffer h d).2 = .ok ∧
      ∃ s', (p.initBuffer h d).1.slots[h.index]? = some s' ∧ s'.state = .VALID) ∧
    (∀ (p : Pool BufferInfo) (h : Handle) (s : Slot BufferInfo) (d : sg_buffer_desc),
      p.slots[h.index]? = some s → s.state = .ALLOC → h.generation = s.generation →
      validBufferDesc d = false →
      (p.initBuffer h d).2 = .validationFailed ∧ (p.initBuffer h d).2 ≠ .ok ∧
      ∃ s', (p.initBuffer h d).1.slots[h.index]? = some s' ∧ s'.state = .FAILED ∧
        s'.payload = none) ∧
    (∀ d : sg_buffer_desc, d.size = 0 → validBufferDesc d = false) ∧
    (∀ (p : Pool BufferInfo) (h : Handle) (s : Slot BufferInfo),
      p.slots[h.index]? = some s → (s.state = .VALID ∨ s.state = .FAILED) →
      h.generation = s.generation →
      ∃ s', (p.destroy h).slots[h.index]? = some s' ∧ s'.state = .INITIAL) := by
  refine ⟨?_, ?_, ?_, ?_, ?_⟩
  · intro p h p' ha
    unfold Pool.alloc at ha
    split at ha
    next => exact absurd ha (by simp)
    next i rest hfl =>
      split at ha
      next s hgi =>
        simp only [Except.ok.injEq, Prod.mk.injEq] at ha
        obtain ⟨hh, hp⟩ := ha
        have hlt : i < p.slots.length := (List.getElem?_eq_some.mp hgi).1
        refine ⟨{ s with state := .ALLOC }, ?_, rfl⟩
        rw [← hp, ← hh]
        exact List.getElem?_set_eq_of_lt _ hlt
      next => exact absurd ha (by simp)
  · intro p h s d hgi hA hgen hvd
    have hib : p.initBuffer h d =
        p.initSlot h true ⟨sgApplyEnumDefault SG_USAGE_IMMUTABLE d.usage⟩ := by
      unfold Pool.initBuffer
      rw [hvd]
    have hlt : h.index < p.slots.length := (List.getElem?_eq_some.mp hgi).1
    rw [hib, Pool.initSlot_eq_valid hgi hA hgen _]
    exact ⟨rfl, _, List.getElem?_set_eq_of_lt _ hlt, rfl⟩
  · intro p h s d hgi hA hgen hvd
    have hib : p.initBuffer h d =
        p.initSlot h false ⟨sgApplyEnumDefault SG_USAGE_IMMUTABLE d.usage⟩ := by
      unfold Pool.initBuffer
      rw [hvd]
    have hlt : h.index < p.slots.length := (List.getElem?_eq_some.mp hgi).1
    rw [hib, Pool.initSlot_eq_invalid hgi hA hgen _]
    exact ⟨rfl, by simp, _, List.getElem?_set_eq_of_lt _ hlt, rfl, rfl⟩
  · intro d hd
    unfold validBufferDesc
    rw [hd]
    simp
  · intro p h s hgi hvf hgen
    have hne : s.state ≠ .INITIAL := by
      rcases hvf with h1 | h1 <;> simp [h1]
    have hd := Pool.destroy_eq hgi hne hgen
    rw [hd]
    have hlt : h.index < p.slots.length := (List.getElem?_eq_some.mp hgi).1
    exact ⟨_, List.getElem?_set_eq_of_lt _ hlt, rfl⟩

/-- C3 instantiated: initializing the allocated demonstration slot with a
size-0 buffer descriptor fails validation and leaves the slot FAILED with no
payload. -/
theorem c3_witness :
    (demoAllocPool.initBuffer ⟨0, 1⟩ demoBadDesc).2 = .validationFailed ∧
    ∃ s', (demoAllocPool.initBuffer ⟨0, 1⟩ demoBadDesc).1.slots[(0 : Nat)]? = some s' ∧
      s'.state = .FAILED ∧ s'.payload = none := by
  have h := c3_resource_state_machine.2.2.1 demoAllocPool ⟨0, 1⟩ ⟨.ALLOC, 1, false, none⟩
      demoBadDesc rfl rfl rfl (by decide)
  exact ⟨h.1, h.2.2⟩

/-- C5: allocate pops a free INITIAL slot, sets it ALLOC and returns a handle
embedding the slot's current generation, which is 1 on first-ever use of an
index (0 being reserved for the invalid handle); with no free slot it fails
with PoolExhausted; the pool never grows under any operation sequence; and
after a destroy the next allocate succeeds reusing the freed slot with the
16-bit generation incremented by one. -/
theorem c5_alloc_exhaustion_reuse :
    (∀ (p : Pool BufferInfo), p.freeList = [] → p.alloc = .error .PoolExhausted) ∧
    (∀ (p : Pool BufferInfo) (i : Nat) (rest : List Nat), p.WF → p.freeList = i :: rest →
      ∃ s, p.slots[i]? = some s ∧ s.state = .INITIAL ∧
        p.alloc = .ok (⟨i, s.generation⟩,
          { slots := p.slots.set i { s with state := .ALLOC }, freeList := rest })) ∧
    (∀ n : Nat, 0 < n →
      ∃ p', (Pool.create BufferInfo n).alloc = .ok (⟨0, 1⟩, p')) ∧
    (∀ (p : Pool BufferInfo) (ops : List PoolOp),
      (p.applyOps ops).capacity = p.capacity) ∧
    (∀ (p : Pool BufferInfo) (h : Handle) (s : Slot BufferInfo),
      p.slots[h.index]? = some s → s.state ≠ .INITIAL → h.generation = s.generation →
      ∃ p', (p.destroy h).alloc = .ok (⟨h.index, (s.generation + 1) % 65536⟩, p')) := by
  refine ⟨?_, ?_, ?_, ?_, ?_⟩
  · intro p hfl
    unfold Pool.alloc
    rw [hfl]
  · intro p i rest hw hfl
    have hini : initialAt p.slots i = true :=
      (hw.2 i).mp (by rw [hfl]; exact List.mem_cons_self i rest)
    rw [initialAt_true_iff] at hini
    obtain ⟨s, hgi, hINI⟩ := hini
    exact ⟨s, hgi, hINI, Pool.alloc_eq hfl hgi⟩
  · intro n hn
    obtain ⟨m, rfl⟩ : ∃ m, n = m + 1 := ⟨n - 1, by omega⟩
    have hfl : (Pool.create BufferInfo (m + 1)).freeList = 0 :: (List.range m).map Nat.succ :=
      List.range_succ_eq_map m
    have hgi : (Pool.create BufferInfo (m + 1)).slots[(0 : Nat)]? =
        some (initialSlot BufferInfo) := by
      unfold Pool.create
      rw [List.getElem?_replicate]
      simp
    exact ⟨_, Pool.alloc_eq hfl hgi⟩
  · intro p ops
    exact Pool.capacity_applyOps p ops
  · intro p h s hgi hne hgen
    have hd := Pool.destroy_eq hgi hne hgen
    have hlt : h.index < p.slots.length := (List.getElem?_eq_some.mp hgi).1
    have hgi' : (p.destroy h).slots[h.index]? =
        some ⟨.INITIAL, (s.generation + 1) % 65536, false, none⟩ := by
      rw [hd]
      exact List.getElem?_set_eq_of_lt _ hlt
    have hfl' : (p.destroy h).freeList = h.index :: p.freeList := by rw [hd]
    exact ⟨_, Pool.alloc_eq hfl' hgi'⟩

/-- C5 instantiated (scenario A with pool size 4): the fifth allocation from
a fully allocated four-slot pool fails with PoolExhausted; the first
allocation from a fresh pool carries generation 1; after destroying one
buffer the next allocation reuses its slot with generation 2. -/
theorem c5_witness :
    exhaustedPool.alloc = .error .PoolExhausted ∧
    (∃ p', (Pool.create BufferInfo 4).alloc = .ok (⟨0, 1⟩, p')) ∧
    (∃ p', (exhaustedPool.destroy ⟨0, 1⟩).alloc = .ok (⟨0, 2⟩, p')) := by
  refine ⟨c5_alloc_exhaustion_reuse.1 exhaustedPool (by decide),
          c5_alloc_exhaustion_reuse.2.2.1 4 (by decide), ?_⟩
  exact c5_alloc_exhaustion_reuse.2.2.2.2 exhaustedPool ⟨0, 1⟩ ⟨.ALLOC, 1, false, none⟩
      rfl (by decide) rfl

/-- C4: destroying an invalid, stale or already-INITIAL handle is a no-op
(not an error), destroy is idempotent, and after any sequence of
allocate/initialize/destroy/update/frame operations from a fresh pool the
free-list size plus the allocated-slot count equals the pool capacity. -/
theorem c4_destroy_idempotent_consistent :
    (∀ (p : Pool BufferInfo) (h : Handle), p.resolve h = none → p.destroy h = p) ∧
    (∀ (p : Pool BufferInfo) (h : Handle), (p.destroy h).destroy h = p.destroy h) ∧
    (∀ (n : Nat) (ops : List PoolOp),
      (Pool.applyOps (Pool.create BufferInfo n) ops).consistent) := by
  refine ⟨?_, ?_, ?_⟩
  · intro p h hres
    exact Pool.destroy_of_resolve_none hres
  · intro p h
    cases hres : p.resolve h with
    | none =>
      rw [Pool.destroy_of_resolve_none hres]
      exact Pool.destroy_of_resolve_none hres
    | some i =>
      unfold Pool.resolve at hres
      split at hres
      next s hgi =>
        split at hres
        next hc =>
          have hd := Pool.destroy_eq hgi hc.1 hc.2
          have hlt : h.index < p.slots.length := (List.getElem?_eq_some.mp hgi).1
          have hgi' : (p.destroy h).slots[h.index]? =
              some ⟨.INITIAL, (s.generation + 1) % 65536, false, none⟩ := by
            rw [hd]
            exact List.getElem?_set_eq_of_lt _ hlt
          have hres' : (p.destroy h).resolve h = none := by
            unfold Pool.resolve
            rw [hgi']
            simp
          exact Pool.destroy_of_resolve_none hres'
        next => exact absurd hres (by simp)
      next => exact absurd hres (by simp)
  · intro n ops
    exact (Pool.WF_applyOps (Pool.WF_create BufferInfo n) ops).toConsistent

/-- C4 instantiated: destroying the unused slot 1 of the demonstration pool
through a stale-looking handle is a no-op, and a small allocate/destroy
sequence from a fresh four-slot pool keeps the accounting balanced. -/
theorem c4_witness :
    demoPool.destroy ⟨1, 1⟩ = demoPool ∧
    (Pool.applyOps (Pool.create BufferInfo 4) [.allocate, .destroyB ⟨0, 1⟩]).consistent :=
  ⟨c4_destroy_idempotent_consistent.1 demoPool ⟨1, 1⟩ (by decide),
   c4_destroy_idempotent_consistent.2.2 4 [.allocate, .destroyB ⟨0, 1⟩]⟩

theorem Pool.updateBuffer_eq_budget {p : Pool BufferInfo} {h : Handle}
    {s : Slot BufferInfo} {info : BufferInfo} (hgi : p.slots[h.index]? = some s)
    (hV : s.state = .VALID) (hgen : h.generation = s.generation)
    (hpl : s.payload = some info) (him : info.usage ≠ SG_USAGE_IMMUTABLE)
    (hfl : s.updatedThisFrame = true) :
    p.updateBuffer h = (p, .budgetExceeded) := by
  unfold Pool.updateBuffer
  rw [hgi]
  simp [hV, hgen, hpl, him, hfl]

theorem Pool.updateBuffer_eq_immutable {p : Pool BufferInfo} {h : Handle}
    {s : Slot BufferInfo} {info : BufferInfo} (hgi : p.slots[h.index]? = some s)
    (hV : s.state = .VALID) (hgen : h.generation = s.generation)
    (hpl : s.payload = some info) (him : info.usage = SG_USAGE_IMMUTABLE) :
    p.updateBuffer h = (p, .immutableUsage) := by
  unfold Pool.updateBuffer
  rw [hgi]
  simp [hV, hgen, hpl, him]

theorem Gfx.updateBuffer_snd (g : Gfx) (h : Handle) :
    (g.updateBuffer h).2 = (g.bufferPool.updateBuffer h).2 := rfl

theorem Gfx.updateBuffer_fst_pool (g : Gfx) (h : Handle) :
    (g.updateBuffer h).1.bufferPool = (g.bufferPool.updateBuffer h).1 := rfl

theorem Gfx.commit_bufferPool (g : Gfx) :
    g.commit.bufferPool = g.bufferPool.clearFrameFlags := rfl

/-- C8: update on a VALID non-immutable buffer succeeds at most once between
two commits: the per-slot updated-this-frame flag is set by the first update,
a second update on the same resource before the next commit reports the
budget-exceeded error (the one policy, applied consistently), and commit —
the frame boundary — resets the flag so that the update succeeds again;
update is also refused for non-VALID states and for immutable usage. -/
theorem c8_update_once_per_frame (g : Gfx) (h : Handle) :
    (∀ s info, g.bufferPool.slots[h.index]? = some s → s.state = .VALID →
      h.generation = s.generation → s.payload = some info →
      info.usage ≠ SG_USAGE_IMMUTABLE → s.updatedThisFrame = false →
      (g.updateBuffer h).2 = .ok ∧
      ((g.updateBuffer h).1.updateBuffer h).2 = .budgetExceeded ∧
      (((g.updateBuffer h).1.commit).updateBuffer h).2 = .ok) ∧
    (∀ s info, g.bufferPool.slots[h.index]? = some s → s.state = .VALID →
      h.generation = s.generation → s.payload = some info →
      info.usage ≠ SG_USAGE_IMMUTABLE → s.updatedThisFrame = true →
      (g.updateBuffer h).2 = .budgetExceeded) ∧
    (∀ s, g.bufferPool.slots[h.index]? = some s → s.state ≠ .VALID →
      (g.updateBuffer h).2 ≠ .ok) ∧
    (∀ s info, g.bufferPool.slots[h.index]? = some s → s.state = .VALID →
      h.generation = s.generation → s.payload = some info →
      info.usage = SG_USAGE_IMMUTABLE → (g.updateBuffer h).2 = .immutableUsage) := by
  refine ⟨?_, ?_, ?_, ?_⟩
  · intro s info hgi hV hgen hpl him hflag
    have h1 := Pool.updateBuffer_eq_ok hgi hV hgen hpl him hflag
    have hlt : h.index < g.bufferPool.slots.length := (List.getElem?_eq_some.mp hgi).1
    have hgi2 : (g.updateBuffer h).1.bufferPool.slots[h.index]? =
        some { s with updatedThisFrame := true } := by
      rw [Gfx.updateBuffer_fst_pool, h1]
      exact List.getElem?_set_eq_of_lt _ hlt
    refine ⟨by rw [Gfx.updateBuffer_snd, h1], ?_, ?_⟩
    · rw [Gfx.updateBuffer_snd, Pool.updateBuffer_eq_budget hgi2 hV hgen hpl him rfl]
    · have hgi3 : ((g.updateBuffer h).1.commit).bufferPool.slots[h.index]? =
          some { s with updatedThisFrame := false } := by
        rw [Gfx.commit_bufferPool]
        unfold Pool.clearFrameFlags
        rw [List.getElem?_map, hgi2]
        rfl
      rw [Gfx.updateBuffer_snd, Pool.updateBuffer_eq_ok hgi3 hV hgen hpl him rfl,
        Gfx.commit_bufferPool]
  · intro s info hgi hV hgen hpl him hflag
    rw [Gfx.updateBuffer_snd, Pool.updateBuffer_eq_budget hgi hV hgen hpl him hflag]
  · intro s hgi hnV
    rw [Gfx.updateBuffer_snd]
    unfold Pool.updateBuffer
    rw [hgi]
    simp [hnV]
  · intro s info hgi hV hgen hpl him
    rw [Gfx.updateBuffer_snd, Pool.updateBuffer_eq_immutable hgi hV hgen hpl him]

/-- C8 instantiated: on the demonstration context the first update of the
dynamic buffer succeeds, the second before commit reports the exceeded
budget, and after a commit the update succeeds again. -/
theorem c8_witness :
    (demoGfx.updateBuffer ⟨0, 1⟩).2 = .ok ∧
    ((demoGfx.updateBuffer ⟨0, 1⟩).1.updateBuffer ⟨0, 1⟩).2 = .budgetExceeded ∧
    (((demoGfx.updateBuffer ⟨0, 1⟩).1.commit).updateBuffer ⟨0, 1⟩).2 = .ok :=
  (c8_update_once_per_frame demoGfx ⟨0, 1⟩).1 ⟨.VALID, 1, false, some ⟨SG_USAGE_DYNAMIC⟩⟩
    ⟨SG_USAGE_DYNAMIC⟩ rfl rfl rfl rfl (by decide) rfl

/-- C6: a draw issued while the active draw state references any handle that
does not resolve to a VALID slot (stale, out of range, ALLOC or FAILED), or
issued without a currently-valid draw state, or outside a pass, produces zero
backend draw calls and raises no error: the context is returned unchanged. -/
theorem c6_draw_silently_dropped :
    (∀ (g : Gfx) (ds : sg_draw_state), g.passState = .InPass →
      (g.pipelinePool.resolvedValid ds.pipeline = false ∨
       (∃ hb ∈ ds.vertexBuffers, g.bufferPool.resolvedValid hb = false) ∨
       (∃ hb, ds.indexBuffer = some hb ∧ g.bufferPool.resolvedValid hb = false) ∨
       (∃ hb ∈ ds.vsImages, g.imagePool.resolvedValid hb = false) ∨
       (∃ hb ∈ ds.fsImages, g.imagePool.resolvedValid hb = false)) →
      (g.applyDrawState ds).draw = g.applyDrawState ds ∧
      ((g.applyDrawState ds).draw).backendDrawCalls = g.backendDrawCalls) ∧
    (∀ g : Gfx, g.drawStateValid = false → g.draw = g) ∧
    (∀ g : Gfx, g.passState ≠ .InPass → g.draw = g) := by
  have hdraw : ∀ g2 : Gfx, g2.drawStateValid = false → g2.draw = g2 := by
    intro g2 hf
    unfold Gfx.draw
    simp [hf]
  refine ⟨?_, hdraw, ?_⟩
  · intro g ds hin hbad
    have hok : g.drawStateOk ds = false := by
      rw [Bool.eq_false_iff]
      intro htrue
      unfold Gfx.drawStateOk at htrue
      simp only [Bool.and_eq_true, List.all_eq_true] at htrue
      obtain ⟨⟨⟨⟨hpip, hvb⟩, hib⟩, hvi⟩, hfi⟩ := htrue
      rcases hbad with hb | ⟨x, hx, hxf⟩ | ⟨x, hx, hxf⟩ | ⟨x, hx, hxf⟩ | ⟨x, hx, hxf⟩
      · simp [hb] at hpip
      · have hx2 := hvb x hx
        simp [hxf] at hx2
      · rw [hx] at hib
        simp [hxf] at hib
      · have hx2 := hvi x hx
        simp [hxf] at hx2
      · have hx2 := hfi x hx
        simp [hxf] at hx2
    have happly : g.applyDrawState ds =
        { g with drawStateValid := false, curPipeline := none } := by
      unfold Gfx.applyDrawState
      rw [hin, hok]
      simp
    refine ⟨?_, ?_⟩
    · rw [happly]
      exact hdraw _ rfl
    · rw [happly, hdraw _ rfl]
  · intro g hnin
    unfold Gfx.draw
    simp [hnin]

/-- C6 instantiated: applying a draw state whose pipeline handle is stale
(generation 99 against a slot with generation 1) and then drawing leaves the
context unchanged and emits zero backend draw calls. -/
theorem c6_witness :
    (demoGfx.applyDrawState demoBadDrawState).draw =
      demoGfx.applyDrawState demoBadDrawState ∧
    ((demoGfx.applyDrawState demoBadDrawState).draw).backendDrawCalls = 0 :=
  c6_draw_silently_dropped.1 demoGfx demoBadDrawState rfl (Or.inl (by decide))

/-- C2 refuted at the 16-bit wrap: the generation counter of spec section 3
is a uint16, so after 65536 destroy cycles on one slot it returns to its
starting value — cycle 0 and cycle 65536 capture the same generation (so
65537 captured generations are not pairwise distinct), and the handle
captured at cycle 0 validates again against the reallocated slot 65536
cycles later. -/
theorem c2_counterexample_generation_wrap :
    capturedGen 65536 = capturedGen 0 ∧ (65536 : Nat) ≠ 0 ∧
    (allocStateAfter 65536).resolve ⟨0, capturedGen 0⟩ = some 0 := by
  refine ⟨?_, by decide, ?_⟩
  · rw [capturedGen_eq, capturedGen_eq]
  · rw [allocStateAfter_eq, capturedGen_eq]
    unfold Pool.resolve
    simp

/-- C2 (amended): the slot generation increments exactly once per allocation
cycle — on destroy, as a 16-bit counter, never on re-initialization — so
destroying and reallocating the same index N times yields pairwise-distinct
generations as long as N does not exceed 2^16, and a handle captured before
a destroy never validates against the reallocated slot within 2^16 cycles of
its capture. -/
theorem c2_generation_unique_within_wrap :
    (∀ k : Nat, capturedGen (k + 1) = (capturedGen k + 1) % 65536) ∧
    (∀ (p : Pool BufferInfo) (h : Handle) (valid : Bool) (pl : BufferInfo) (i : Nat),
      ((p.initSlot h valid pl).1.slots[i]?).map Slot.generation =
        (p.slots[i]?).map Slot.generation) ∧
    (∀ j k : Nat, j < k → k < 65536 → capturedGen j ≠ capturedGen k) ∧
    (∀ j k : Nat, j < k → k < 65536 →
      (allocStateAfter k).resolve ⟨0, capturedGen j⟩ = none) := by
  refine ⟨?_, ?_, ?_, ?_⟩
  · intro k
    rw [capturedGen_eq, capturedGen_eq]
    exact (mod65536_step k).symm
  · intro p h valid pl i
    unfold Pool.initSlot
    split
    next s hgi =>
      split
      next hc =>
        have hlt : h.index < p.slots.length := (List.getElem?_eq_some.mp hgi).1
        split
        all_goals (
          by_cases hih : i = h.index
          · subst hih
            show ((p.slots.set h.index _)[h.index]?).map _ = _
            rw [List.getElem?_set_eq_of_lt _ hlt, hgi]
            rfl
          · show ((p.slots.set h.index _)[i]?).map _ = _
            rw [List.getElem?_set_ne (fun he => hih he.symm)])
      next => rfl
    next => rfl
  · intro j k hjk hk
    rw [capturedGen_eq, capturedGen_eq]
    exact add_mod65536_ne hjk hk
  · intro j k hjk hk
    rw [allocStateAfter_eq, capturedGen_eq]
    unfold Pool.resolve
    simp only [List.getElem?_cons_zero]
    rw [if_neg]
    intro hcontra
    exact add_mod65536_ne hjk hk hcontra.2

/-- C2 (amended) instantiated: cycles 0 and 1 capture distinct generations,
and the handle captured at cycle 0 no longer validates after the slot is
reallocated in cycle 1. -/
theorem c2_witness :
    capturedGen 0 ≠ capturedGen 1 ∧
    (allocStateAfter 1).resolve ⟨0, capturedGen 0⟩ = none :=
  ⟨c2_generation_unique_within_wrap.2.2.1 0 1 (by decide) (by decide),
   c2_generation_unique_within_wrap.2.2.2 0 1 (by decide) (by decide)⟩
